import Mathlib

/-!
Shallow embedding of `pyIslam/praytimes.py` (prayer-times engine).

Python floats are modelled as `ℝ`; `math.floor` as `Int.floor`;
`datetime.time` as a record constructor that validates its ranges
(the Python `datetime.time` constructor raises `ValueError` unless
`0 <= hour < 24`, `0 <= minute < 60`, `0 <= second < 60`);
`raise` as `Except.error`.

The modules `pyIslam.baselib` (`dsin`, `dcos`, `gregorianToJulianDay`) and
`pyIslam.hijri` (`HijriDate.getHijri(date, c).month`) are imported by
`praytimes.py` but are not part of the given sources.  `dsin`/`dcos` are
modelled from the spec (sin/cos on degree input); the Julian-day and
Hijri-month collaborators are kept abstract, bundled in `Collaborators`,
so every theorem quantifies over them.
-/

namespace PyIslam

open Real

/-- Errors the Python code can raise.
`invalidShift` is the shift isinstance check in `__hoursToTime`;
`correctionValue` is the correction-value `Exception` in
`Prayer.__init__`; `valueError` is raised by `datetime.time` when a
component is out of range and by `math.sqrt` on a negative argument
(math domain error); `zeroDivision` is the `ZeroDivisionError` of a
float division by zero. -/
inductive PyError where
  | invalidShift
  | correctionValue
  | valueError
  | zeroDivision
deriving DecidableEq

/-- A `datetime.time` value (hour, minute, second). -/
structure PyTime where
  hour : ℤ
  minute : ℤ
  second : ℤ
deriving DecidableEq

/-- The `datetime.time(h, m, s)` constructor: raises `ValueError` unless
`0 <= hour < 24`, `0 <= minute < 60`, `0 <= second < 60`. -/
def timeCtor (h m s : ℤ) : Except PyError PyTime :=
  if 0 ≤ h ∧ h < 24 ∧ 0 ≤ m ∧ m < 60 ∧ 0 ≤ s ∧ s < 60 then
    Except.ok ⟨h, m, s⟩
  else
    Except.error PyError.valueError

noncomputable section

/-- Modelled from the spec: `pyIslam.baselib.dsin` — sine on degree input
(the module is not in the given sources). -/
def dsin (x : ℝ) : ℝ := Real.sin (x * (π / 180))

/-- Modelled from the spec: `pyIslam.baselib.dcos` — cosine on degree input
(the module is not in the given sources). -/
def dcos (x : ℝ) : ℝ := Real.cos (x * (π / 180))

/-- Modelled from the spec: the out-of-scope collaborators of the core
(`gregorianToJulianDay(date) -> real` from `pyIslam.baselib`, and
`HijriDate.getHijri(date, correction_val).month -> integer` from
`pyIslam.hijri`).  `Date` is an opaque calendar date; the collaborators
are arbitrary pure functions, as the spec consumes them. -/
structure Collaborators (Date : Type) where
  gregorianToJulianDay : Date → ℝ
  hijriMonth : Date → ℤ → ℤ

variable {Date : Type}

/-- `PrayerConf`: the configuration object, with its derived fields
exactly as `PrayerConf.__init__` stores them. -/
structure PrayerConf where
  longitude : ℝ
  latitude : ℝ
  timezone : ℝ
  sherookZenith : ℝ
  maghrebZenith : ℝ
  asrMadhab : ℤ
  middleLongitude : ℝ
  longitudeDifference : ℝ
  summerTime : Bool
  fajrZenith : ℝ
  ishaaZenith : Option ℝ

/-- The `zeniths` dict lookup `zeniths.get(zenith_ref, zeniths[3])` of
`PrayerConf.__init__`: method id → (fajr zenith, ishaa zenith), with
the entry of method 3 as the default for unknown ids.  Method 4 (Umm al-Qura)
has `None` for the ishaa zenith. -/
def zenithsGet (zenith_ref : ℤ) : ℝ × Option ℝ :=
  if zenith_ref = 1 then (108.0, some 108.0)
  else if zenith_ref = 2 then (108.0, some 107.0)
  else if zenith_ref = 3 then (109.5, some 107.5)
  else if zenith_ref = 4 then (108.5, none)
  else if zenith_ref = 5 then (105.0, some 105.0)
  else (109.5, some 107.5)

/-- `PrayerConf.__init__(longitude, latitude, timezone, zenith_ref,
asr_madhab, enable_summer_time)`.  It never raises. -/
def mkPrayerConf (longitude latitude timezone : ℝ) (zenith_ref : ℤ)
    (asr_madhab : ℤ) (enable_summer_time : Bool) : PrayerConf :=
  { longitude := longitude
    latitude := latitude
    timezone := timezone
    sherookZenith := 90.83333
    maghrebZenith := 90.83333
    asrMadhab := if asr_madhab = 2 then asr_madhab else 1
    middleLongitude := timezone * 15
    longitudeDifference := (timezone * 15 - longitude) / 15
    summerTime := enable_summer_time
    fajrZenith := (zenithsGet zenith_ref).1
    ishaaZenith := (zenithsGet zenith_ref).2 }

/-- The `Prayer` engine object: its three stored attributes. -/
structure Prayer (Date : Type) where
  conf : PrayerConf
  date : Date
  correction_val : ℤ

/-- `Prayer.__init__(conf, dat, correction_val)`: raises unless
`correction_val in range(-2, 3)` (for an integer: `-2 ≤ v < 3`). -/
def prayerInit (conf : PrayerConf) (dat : Date) (correction_val : ℤ) :
    Except PyError (Prayer Date) :=
  if ¬(-2 ≤ correction_val ∧ correction_val < 3) then
    Except.error PyError.correctionValue
  else
    Except.ok ⟨conf, dat, correction_val⟩

/-- `Prayer.__equationOfTime`. -/
def equationOfTime (C : Collaborators Date) (p : Prayer Date) : ℝ :=
  let n := C.gregorianToJulianDay p.date - 2451544.5
  let g := 357.528 + 0.9856003 * n
  let c := 1.9148 * dsin g + 0.02 * dsin (2 * g) + 0.0003 * dsin (3 * g)
  let lamda := 280.47 + 0.9856003 * n + c
  let r := -2.468 * dsin (2 * lamda) + 0.053 * dsin (4 * lamda)
    + 0.0014 * dsin (6 * lamda)
  (c + r) * 4

/-- `Prayer.__sunDeclination`, value on the non-raising path (see
`sunDeclinationE` below for the same source function with the raising
`math.sqrt` and division operations made explicit). -/
def sunDeclination (C : Collaborators Date) (p : Prayer Date) : ℝ :=
  let n := C.gregorianToJulianDay p.date - 2451544.5
  let epsilon := 23.44 - 0.0000004 * n
  let l := 280.466 + 0.9856474 * n
  let g := 357.528 + 0.9856003 * n
  let lamda := l + 1.915 * dsin g + 0.02 * dsin (2 * g)
  let x := dsin epsilon * dsin lamda
  (180 / (4 * Real.arctan 1)) * Real.arctan (x / Real.sqrt (-x * x + 1))

/-- `Prayer.__asrZenith`, value on the non-raising path (see `asrZenithE`
below).  Note `2 * atan(1) = π/2`, so the returned value
is `90 - (180/π)·atan(x) - 90 = -(180/π)·atan(x)`. -/
def asrZenith (C : Collaborators Date) (p : Prayer Date) : ℝ :=
  let delta := sunDeclination C p
  let x := dsin p.conf.latitude * dsin delta
    + dcos p.conf.latitude * dcos delta
  let a := Real.arctan (x / Real.sqrt (-x * x + 1))
  let x2 := (p.conf.asrMadhab : ℝ) + 1 / Real.tan a
  90 - (180 / π) * (Real.arctan x2 + 2 * Real.arctan 1)

/-- `Prayer.__dohrTime`: Dohr as a number of hours, not a time object. -/
def dohrHours (C : Collaborators Date) (p : Prayer Date) : ℝ :=
  let ld := p.conf.longitudeDifference
  let time_eq := equationOfTime C p
  12 + ld + time_eq / 60

/-- `Prayer.__prayerTime(zenith)`: hour-angle offset from solar noon,
value on the non-raising path.  In Python `math.sqrt(-s*s+1)` raises
`ValueError` when `-s*s+1 < 0` and the two divisions raise
`ZeroDivisionError` on a zero denominator, both reachable at extreme
latitudes; `prayerTimeE` below models the same source function with
those error paths explicit. -/
def prayerTime (C : Collaborators Date) (p : Prayer Date) (zenith : ℝ) : ℝ :=
  let delta := sunDeclination C p
  let s := (dcos zenith - dsin p.conf.latitude * dsin delta)
    / (dcos p.conf.latitude * dcos delta)
  (180 / π * (Real.arctan (-s / Real.sqrt (-s * s + 1)) + π / 2)) / 15

/-- The `shift` argument of the accessors: Python is dynamically typed,
so a caller may pass an `int`, a `float`, or something else entirely
(modelled by `text`).  `__hoursToTime` accepts exactly
`isinstance(shift, float) or isinstance(shift, int)`. -/
inductive ShiftVal where
  | int (n : ℤ)
  | float (x : ℝ)
  | text

/-- The isinstance test of `__hoursToTime`. -/
def ShiftVal.isNumeric : ShiftVal → Bool
  | ShiftVal.int _ => true
  | ShiftVal.float _ => true
  | ShiftVal.text => false

/-- Numeric value of a shift (unused on the `text` branch, which raises
before the value is read). -/
def ShiftVal.toReal : ShiftVal → ℝ
  | ShiftVal.int n => (n : ℝ)
  | ShiftVal.float x => x
  | ShiftVal.text => 0

/-- `Prayer.__hoursToTime(val, shift, summer_time)`: converts a decimal
hour value to a `datetime.time`.  Raises if `shift` is not numeric;
otherwise decomposes by flooring and calls the (validating)
`datetime.time` constructor with `floor(hours) + st`. -/
def hoursToTime (val : ℝ) (shift : ShiftVal) (summer_time : Bool) :
    Except PyError PyTime :=
  if ¬shift.isNumeric then Except.error PyError.invalidShift
  else
    let st : ℤ := if summer_time then 1 else 0
    let hours := val + shift.toReal / 3600
    let minutes := (hours - (⌊hours⌋ : ℝ)) * 60
    let seconds := (minutes - (⌊minutes⌋ : ℝ)) * 60
    timeCtor (⌊hours⌋ + st) ⌊minutes⌋ ⌊seconds⌋

/-- The decimal-hour value converted by `fajrTime`. -/
def fajrHours (C : Collaborators Date) (p : Prayer Date) : ℝ :=
  dohrHours C p - prayerTime C p p.conf.fajrZenith

/-- The decimal-hour value converted by `sherookTime`. -/
def sherookHours (C : Collaborators Date) (p : Prayer Date) : ℝ :=
  dohrHours C p - prayerTime C p p.conf.sherookZenith

/-- The decimal-hour value converted by `asrTime`. -/
def asrHours (C : Collaborators Date) (p : Prayer Date) : ℝ :=
  dohrHours C p + prayerTime C p (asrZenith C p)

/-- The decimal-hour value converted by `maghrebTime`. -/
def maghrebHours (C : Collaborators Date) (p : Prayer Date) : ℝ :=
  dohrHours C p + prayerTime C p p.conf.maghrebZenith

/-- The value `ishaa_t` computed by `Prayer.ishaaTime` before conversion.

In the source, the Umm al-Qura branch reads

  ishaa_t = self.__dohrTime()
  + self.__prayerTime(self.__conf.maghrebZenith) + 2.0

with no parentheses or backslash continuation: the second line is a
SEPARATE expression statement (a unary `+` applied to the call, plus
2.0) whose value is discarded.  So in both Hijri-month branches the
assignment is `ishaa_t = self.__dohrTime()` alone.  The discarded
expressions are kept below as unused bindings to mirror the source. -/
def ishaaHours (C : Collaborators Date) (p : Prayer Date) : ℝ :=
  match p.conf.ishaaZenith with
  | none =>
    if C.hijriMonth p.date p.correction_val = 9 then
      let _discarded := prayerTime C p p.conf.maghrebZenith + 2.0
      dohrHours C p
    else
      let _discarded := prayerTime C p p.conf.maghrebZenith + 1.5
      dohrHours C p
  | some z => dohrHours C p + prayerTime C p z

/-- `Prayer.fajrTime(shift)`. -/
def fajrTime (C : Collaborators Date) (p : Prayer Date) (shift : ShiftVal) :
    Except PyError PyTime :=
  hoursToTime (fajrHours C p) shift p.conf.summerTime

/-- `Prayer.sherookTime(shift)`. -/
def sherookTime (C : Collaborators Date) (p : Prayer Date) (shift : ShiftVal) :
    Except PyError PyTime :=
  hoursToTime (sherookHours C p) shift p.conf.summerTime

/-- `Prayer.dohrTime(shift)`. -/
def dohrTime (C : Collaborators Date) (p : Prayer Date) (shift : ShiftVal) :
    Except PyError PyTime :=
  hoursToTime (dohrHours C p) shift p.conf.summerTime

/-- `Prayer.asrTime(shift)`. -/
def asrTime (C : Collaborators Date) (p : Prayer Date) (shift : ShiftVal) :
    Except PyError PyTime :=
  hoursToTime (asrHours C p) shift p.conf.summerTime

/-- `Prayer.maghrebTime(shift)`. -/
def maghrebTime (C : Collaborators Date) (p : Prayer Date) (shift : ShiftVal) :
    Except PyError PyTime :=
  hoursToTime (maghrebHours C p) shift p.conf.summerTime

/-- `Prayer.ishaaTime(shift)`. -/
def ishaaTime (C : Collaborators Date) (p : Prayer Date) (shift : ShiftVal) :
    Except PyError PyTime :=
  hoursToTime (ishaaHours C p) shift p.conf.summerTime

/-! Error-aware model.  The plain functions above give the values
computed on the non-raising path.  Python has raising operations inside
the same source functions: `math.sqrt` raises `ValueError` (math
domain error) on a negative argument, and float division raises
`ZeroDivisionError` on a zero denominator — reachable in
`__prayerTime` (and `__asrZenith`, `__sunDeclination`) at extreme
latitudes.  The `...E` variants below embed the same source lines with
these error paths explicit, propagating like Python exceptions.  Each
accessor evaluates its decimal-hour expression first and only then
reaches the isinstance shift check inside `__hoursToTime`, exactly as
the Python argument evaluation order does. -/

/-- Python float division `a / b`: raises `ZeroDivisionError` when the
denominator is zero. -/
def pyDiv (a b : ℝ) : Except PyError ℝ :=
  if b = 0 then Except.error PyError.zeroDivision else Except.ok (a / b)

/-- Python `math.sqrt`: raises `ValueError` (math domain error) on a
negative argument. -/
def pySqrt (x : ℝ) : Except PyError ℝ :=
  if x < 0 then Except.error PyError.valueError else Except.ok (Real.sqrt x)

/-- The local `x = dsin(epsilon) * dsin(lamda)` of
`Prayer.__sunDeclination`, extracted so the error-aware variant can
state its domain condition about it. -/
def sunDeclX (C : Collaborators Date) (p : Prayer Date) : ℝ :=
  let n := C.gregorianToJulianDay p.date - 2451544.5
  let epsilon := 23.44 - 0.0000004 * n
  let l := 280.466 + 0.9856474 * n
  let g := 357.528 + 0.9856003 * n
  let lamda := l + 1.915 * dsin g + 0.02 * dsin (2 * g)
  dsin epsilon * dsin lamda

/-- `Prayer.__sunDeclination` with the raising `sqrt` and division
explicit. -/
def sunDeclinationE (C : Collaborators Date) (p : Prayer Date) :
    Except PyError ℝ :=
  match pySqrt (-sunDeclX C p * sunDeclX C p + 1) with
  | Except.error e => Except.error e
  | Except.ok root =>
    match pyDiv (sunDeclX C p) root with
    | Except.error e => Except.error e
    | Except.ok q => Except.ok ((180 / (4 * Real.arctan 1)) * Real.arctan q)

/-- `Prayer.__prayerTime(zenith)` with the raising `sqrt` and divisions
explicit (Python evaluates the declination, then `s`, then the square
root, then the final quotient). -/
def prayerTimeE (C : Collaborators Date) (p : Prayer Date) (zenith : ℝ) :
    Except PyError ℝ :=
  match sunDeclinationE C p with
  | Except.error e => Except.error e
  | Except.ok delta =>
    match pyDiv (dcos zenith - dsin p.conf.latitude * dsin delta)
        (dcos p.conf.latitude * dcos delta) with
    | Except.error e => Except.error e
    | Except.ok s =>
      match pySqrt (-s * s + 1) with
      | Except.error e => Except.error e
      | Except.ok root =>
        match pyDiv (-s) root with
        | Except.error e => Except.error e
        | Except.ok q =>
          Except.ok ((180 / π * (Real.arctan q + π / 2)) / 15)

/-- `Prayer.__asrZenith` with the raising `sqrt` and divisions explicit
(`1 / tan(a)` raises `ZeroDivisionError` when `tan(a) == 0.0`). -/
def asrZenithE (C : Collaborators Date) (p : Prayer Date) :
    Except PyError ℝ :=
  match sunDeclinationE C p with
  | Except.error e => Except.error e
  | Except.ok delta =>
    let x := dsin p.conf.latitude * dsin delta
      + dcos p.conf.latitude * dcos delta
    match pySqrt (-x * x + 1) with
    | Except.error e => Except.error e
    | Except.ok root =>
      match pyDiv x root with
      | Except.error e => Except.error e
      | Except.ok q =>
        let a := Real.arctan q
        match pyDiv 1 (Real.tan a) with
        | Except.error e => Except.error e
        | Except.ok cotA =>
          Except.ok (90 - (180 / π)
            * (Real.arctan ((p.conf.asrMadhab : ℝ) + cotA)
              + 2 * Real.arctan 1))

/-- The decimal-hour expression of `fajrTime`, with error paths. -/
def fajrHoursE (C : Collaborators Date) (p : Prayer Date) :
    Except PyError ℝ :=
  match prayerTimeE C p p.conf.fajrZenith with
  | Except.error e => Except.error e
  | Except.ok pt => Except.ok (dohrHours C p - pt)

/-- The decimal-hour expression of `sherookTime`, with error paths. -/
def sherookHoursE (C : Collaborators Date) (p : Prayer Date) :
    Except PyError ℝ :=
  match prayerTimeE C p p.conf.sherookZenith with
  | Except.error e => Except.error e
  | Except.ok pt => Except.ok (dohrHours C p - pt)

/-- The decimal-hour expression of `asrTime`, with error paths
(`__asrZenith()` is evaluated first, then fed to `__prayerTime`). -/
def asrHoursE (C : Collaborators Date) (p : Prayer Date) :
    Except PyError ℝ :=
  match asrZenithE C p with
  | Except.error e => Except.error e
  | Except.ok az =>
    match prayerTimeE C p az with
    | Except.error e => Except.error e
    | Except.ok pt => Except.ok (dohrHours C p + pt)

/-- The decimal-hour expression of `maghrebTime`, with error paths. -/
def maghrebHoursE (C : Collaborators Date) (p : Prayer Date) :
    Except PyError ℝ :=
  match prayerTimeE C p p.conf.maghrebZenith with
  | Except.error e => Except.error e
  | Except.ok pt => Except.ok (dohrHours C p + pt)

/-- The `ishaa_t` computation of `ishaaTime`, with error paths.  Even
though the continuation lines are discarded expression statements,
Python still EVALUATES them, so a raising `__prayerTime` call inside
them propagates out of `ishaaTime`; the discarded value is kept as an
unused binding. -/
def ishaaHoursE (C : Collaborators Date) (p : Prayer Date) :
    Except PyError ℝ :=
  match p.conf.ishaaZenith with
  | none =>
    if C.hijriMonth p.date p.correction_val = 9 then
      match prayerTimeE C p p.conf.maghrebZenith with
      | Except.error e => Except.error e
      | Except.ok pt =>
        let _discarded := pt + 2.0
        Except.ok (dohrHours C p)
    else
      match prayerTimeE C p p.conf.maghrebZenith with
      | Except.error e => Except.error e
      | Except.ok pt =>
        let _discarded := pt + 1.5
        Except.ok (dohrHours C p)
  | some z =>
    match prayerTimeE C p z with
    | Except.error e => Except.error e
    | Except.ok pt => Except.ok (dohrHours C p + pt)

/-- `Prayer.fajrTime(shift)` with error paths. -/
def fajrTimeE (C : Collaborators Date) (p : Prayer Date)
    (shift : ShiftVal) : Except PyError PyTime :=
  match fajrHoursE C p with
  | Except.error e => Except.error e
  | Except.ok v => hoursToTime v shift p.conf.summerTime

/-- `Prayer.sherookTime(shift)` with error paths. -/
def sherookTimeE (C : Collaborators Date) (p : Prayer Date)
    (shift : ShiftVal) : Except PyError PyTime :=
  match sherookHoursE C p with
  | Except.error e => Except.error e
  | Except.ok v => hoursToTime v shift p.conf.summerTime

/-- `Prayer.dohrTime(shift)` with error paths: the Dohr hours involve
no raising operation, so this is `hoursToTime` directly. -/
def dohrTimeE (C : Collaborators Date) (p : Prayer Date)
    (shift : ShiftVal) : Except PyError PyTime :=
  hoursToTime (dohrHours C p) shift p.conf.summerTime

/-- `Prayer.asrTime(shift)` with error paths. -/
def asrTimeE (C : Collaborators Date) (p : Prayer Date)
    (shift : ShiftVal) : Except PyError PyTime :=
  match asrHoursE C p with
  | Except.error e => Except.error e
  | Except.ok v => hoursToTime v shift p.conf.summerTime

/-- `Prayer.maghrebTime(shift)` with error paths. -/
def maghrebTimeE (C : Collaborators Date) (p : Prayer Date)
    (shift : ShiftVal) : Except PyError PyTime :=
  match maghrebHoursE C p with
  | Except.error e => Except.error e
  | Except.ok v => hoursToTime v shift p.conf.summerTime

/-- `Prayer.ishaaTime(shift)` with error paths. -/
def ishaaTimeE (C : Collaborators Date) (p : Prayer Date)
    (shift : ShiftVal) : Except PyError PyTime :=
  match ishaaHoursE C p with
  | Except.error e => Except.error e
  | Except.ok v => hoursToTime v shift p.conf.summerTime

/-- Whether an error-aware hour computation succeeded. -/
def isOkE : Except PyError ℝ → Bool
  | Except.error _ => false
  | Except.ok _ => true

/-! Spec-side definitions, written from the words of the spec, to be
compared with the definitions embedded from the source. -/

/-- The equation-of-time formula as the spec states it: mean anomaly
`g = 357.528 + 0.9856003 n` with `n = julianDay(date) - 2451544.5`, the
three-harmonic correction `c` in `g`, ecliptic longitude
`lamda = 280.47 + 0.9856003 n + c`, the three-harmonic correction `r` in
`2 lamda, 4 lamda, 6 lamda`, result `(c + r) * 4` minutes. -/
def equationOfTimeSpec (jd : ℝ) : ℝ :=
  let n := jd - 2451544.5
  let g := 357.528 + 0.9856003 * n
  let c := 1.9148 * dsin g + 0.02 * dsin (2 * g) + 0.0003 * dsin (3 * g)
  let lamda := 280.47 + 0.9856003 * n + c
  let r := -2.468 * dsin (2 * lamda) + 0.053 * dsin (4 * lamda)
    + 0.0014 * dsin (6 * lamda)
  (c + r) * 4

/-- The Asr zenith formula as the spec states it:
`90 - atan(madhabFactor + 1/tan(a))` expressed in degrees, where
`a = atan(x / sqrt(1 - x^2))` with
`x = sin(lat) sin(decl) + cos(lat) cos(decl)`. -/
def asrZenithSpec (C : Collaborators Date) (p : Prayer Date) : ℝ :=
  let delta := sunDeclination C p
  let x := dsin p.conf.latitude * dsin delta
    + dcos p.conf.latitude * dcos delta
  let a := Real.arctan (x / Real.sqrt (1 - x * x))
  90 - (180 / π) * Real.arctan ((p.conf.asrMadhab : ℝ) + 1 / Real.tan a)

/-! Concrete objects used by the closed counterexample and witness
theorems.  `collab0` fixes the Julian day at the J2000.0 epoch and the
Hijri month at 9 (Ramadan); the engines use the example location of the
spec (longitude 31.2, latitude 30, timezone +2). -/

/-- Constant collaborators over a trivial date type. -/
def collab0 : Collaborators Unit :=
  { gregorianToJulianDay := fun _ => 2451544.5
    hijriMonth := fun _ _ => 9 }

/-- An engine with the Egyptian method and the Shafii madhab. -/
def engShafii : Prayer Unit := ⟨mkPrayerConf 31.2 30 2 3 1 false, (), 0⟩

/-- An engine with the Egyptian method and the Hanafi madhab. -/
def engHanafi : Prayer Unit := ⟨mkPrayerConf 31.2 30 2 3 2 false, (), 0⟩

/-- An engine at the North Pole (latitude 90) with the Umm al-Qura
method: there `dcos(latitude) = 0` exactly, so the denominator of `s`
in `__prayerTime` is zero and Python raises `ZeroDivisionError`. -/
def engPolar : Prayer Unit := ⟨mkPrayerConf 0 90 0 4 1 false, (), 0⟩

/-! Helper lemmas. -/

/-- The hour-angle expression of `__prayerTime` is strictly positive:
`arctan` is bounded below by `-π/2`. -/
theorem hourAngleExpr_pos (y : ℝ) :
    0 < (180 / π * (Real.arctan y + π / 2)) / 15 := by
  have h1 := Real.neg_pi_div_two_lt_arctan y
  have h2 : 0 < (180 : ℝ) / π := by positivity
  have h3 : 0 < Real.arctan y + π / 2 := by linarith
  exact div_pos (mul_pos h2 h3) (by norm_num)

/-- `__prayerTime` always returns a strictly positive number of hours. -/
theorem prayerTime_pos (C : Collaborators Date) (p : Prayer Date) (z : ℝ) :
    0 < prayerTime C p z :=
  hourAngleExpr_pos _

/-- When the ishaa zenith is the `None` sentinel (method 4), the value
`ishaa_t` computed by `ishaaTime` equals the Dohr hours in both Hijri
branches: the fixed-offset additions are dead code (separate discarded
expression statements in the source). -/
theorem ishaaHours_eq_dohrHours (C : Collaborators Date) (p : Prayer Date)
    (h : p.conf.ishaaZenith = none) : ishaaHours C p = dohrHours C p := by
  unfold ishaaHours
  rw [h]
  dsimp only
  split <;> rfl

/-- A configuration built with zenith method 4 has the `None` ishaa
zenith sentinel. -/
theorem mkPrayerConf_method4_ishaaZenith (lo la tz : ℝ) (mad : ℤ) (st : Bool) :
    (mkPrayerConf lo la tz 4 mad st).ishaaZenith = none := rfl

/-- The returned Asr zenith differs from the formula in the spec by the
constant `-90`: the `2 * atan(1)` term of the source equals `π/2`, which
the degree conversion turns into a further `-90`. -/
theorem asrZenith_eq_spec_sub_90 (C : Collaborators Date) (p : Prayer Date) :
    asrZenith C p = asrZenithSpec C p - 90 := by
  unfold asrZenith asrZenithSpec
  dsimp only
  set x := dsin p.conf.latitude * dsin (sunDeclination C p)
    + dcos p.conf.latitude * dcos (sunDeclination C p) with hx
  rw [show -x * x + 1 = 1 - x * x from by ring]
  rw [Real.arctan_one]
  have hπ : (π : ℝ) ≠ 0 := Real.pi_ne_zero
  field_simp
  ring

/-- The Asr zenith is strictly antitone in the madhab factor: at equal
date and latitude, a larger `asrMadhab` gives a strictly smaller
returned zenith (the source negates the geometric zenith). -/
theorem asrZenith_lt_of_madhab_lt (C : Collaborators Date) (p q : Prayer Date)
    (hdat : p.date = q.date) (hlat : p.conf.latitude = q.conf.latitude)
    (hm : q.conf.asrMadhab < p.conf.asrMadhab) :
    asrZenith C p < asrZenith C q := by
  unfold asrZenith
  have hdecl : sunDeclination C p = sunDeclination C q := by
    unfold sunDeclination
    rw [hdat]
  rw [hdecl, hlat]
  set t := 1 / Real.tan (Real.arctan
    ((dsin q.conf.latitude * dsin (sunDeclination C q)
      + dcos q.conf.latitude * dcos (sunDeclination C q))
     / Real.sqrt (-(dsin q.conf.latitude * dsin (sunDeclination C q)
      + dcos q.conf.latitude * dcos (sunDeclination C q))
      * (dsin q.conf.latitude * dsin (sunDeclination C q)
      + dcos q.conf.latitude * dcos (sunDeclination C q)) + 1))) with ht
  have harc : Real.arctan ((q.conf.asrMadhab : ℝ) + t)
      < Real.arctan ((p.conf.asrMadhab : ℝ) + t) := by
    apply Real.arctan_strictMono
    have : (q.conf.asrMadhab : ℝ) < (p.conf.asrMadhab : ℝ) := by
      exact_mod_cast hm
    linarith
  have hpos : 0 < (180 : ℝ) / π := by positivity
  have := mul_lt_mul_of_pos_left
    (add_lt_add_right harc (2 * Real.arctan 1)) hpos
  linarith

/-- A non-numeric shift is rejected by the isinstance check before
anything else happens. -/
theorem hoursToTime_text (val : ℝ) (st : Bool) :
    hoursToTime val ShiftVal.text st = Except.error PyError.invalidShift := by
  simp [hoursToTime, ShiftVal.isNumeric]

/-- A `float` or `int` shift passes the isinstance check, and the
conversion then returns either a time or the range `ValueError` of the
time constructor — never the shift error. -/
theorem hoursToTime_numeric_ne_invalidShift (val : ℝ) (shift : ShiftVal)
    (st : Bool) (h : shift.isNumeric = true) :
    hoursToTime val shift st ≠ Except.error PyError.invalidShift := by
  unfold hoursToTime
  rw [h, if_neg (by simp)]
  unfold timeCtor
  dsimp only
  split <;> split <;> simp

/-- The shift error occurs exactly when the shift is non-numeric. -/
theorem hoursToTime_invalidShift_iff (val : ℝ) (shift : ShiftVal) (st : Bool) :
    hoursToTime val shift st = Except.error PyError.invalidShift ↔
      shift.isNumeric = false := by
  cases shift with
  | text => simp [hoursToTime_text, ShiftVal.isNumeric]
  | int n =>
    simp [hoursToTime_numeric_ne_invalidShift val (ShiftVal.int n) st rfl,
      ShiftVal.isNumeric]
  | float x =>
    simp [hoursToTime_numeric_ne_invalidShift val (ShiftVal.float x) st rfl,
      ShiftVal.isNumeric]

/-- The time conversion never produces the division error: its only
error outcomes are the shift error and the range `ValueError`. -/
theorem hoursToTime_ne_zeroDivision (val : ℝ) (shift : ShiftVal) (st : Bool) :
    hoursToTime val shift st ≠ Except.error PyError.zeroDivision := by
  unfold hoursToTime timeCtor
  split
  · simp
  · dsimp only
    split <;> split <;> simp

/-- The only error `pySqrt` raises is the math-domain `ValueError`. -/
theorem pySqrt_error (x : ℝ) (e : PyError)
    (h : pySqrt x = Except.error e) : e = PyError.valueError := by
  unfold pySqrt at h
  split at h
  · injection h with h'
    exact h'.symm
  · exact Except.noConfusion h

/-- The only error `pyDiv` raises is `ZeroDivisionError`. -/
theorem pyDiv_error (a b : ℝ) (e : PyError)
    (h : pyDiv a b = Except.error e) : e = PyError.zeroDivision := by
  unfold pyDiv at h
  split at h
  · injection h with h'
    exact h'.symm
  · exact Except.noConfusion h

/-- A failing declination computation never fails with the shift
error. -/
theorem sunDeclinationE_error_ne (C : Collaborators Date) (p : Prayer Date)
    (e : PyError) (h : sunDeclinationE C p = Except.error e) :
    e ≠ PyError.invalidShift := by
  unfold sunDeclinationE at h
  split at h
  next e1 heq =>
    injection h with h'
    subst h'
    rw [pySqrt_error _ _ heq]
    simp
  next root heq =>
    split at h
    next e2 heq2 =>
      injection h with h'
      subst h'
      rw [pyDiv_error _ _ _ heq2]
      simp
    next q heq2 => exact Except.noConfusion h

/-- A failing hour-angle computation never fails with the shift
error. -/
theorem prayerTimeE_error_ne (C : Collaborators Date) (p : Prayer Date)
    (z : ℝ) (e : PyError) (h : prayerTimeE C p z = Except.error e) :
    e ≠ PyError.invalidShift := by
  unfold prayerTimeE at h
  split at h
  next e1 heq =>
    injection h with h'
    subst h'
    exact sunDeclinationE_error_ne C p e1 heq
  next delta heq =>
    split at h
    next e2 heq2 =>
      injection h with h'
      subst h'
      rw [pyDiv_error _ _ _ heq2]
      simp
    next s heq2 =>
      split at h
      next e3 heq3 =>
        injection h with h'
        subst h'
        rw [pySqrt_error _ _ heq3]
        simp
      next root heq3 =>
        split at h
        next e4 heq4 =>
          injection h with h'
          subst h'
          rw [pyDiv_error _ _ _ heq4]
          simp
        next q heq4 => exact Except.noConfusion h

/-- A failing Asr-zenith computation never fails with the shift
error. -/
theorem asrZenithE_error_ne (C : Collaborators Date) (p : Prayer Date)
    (e : PyError) (h : asrZenithE C p = Except.error e) :
    e ≠ PyError.invalidShift := by
  unfold asrZenithE at h
  dsimp only at h
  split at h
  next e1 heq =>
    injection h with h'
    subst h'
    exact sunDeclinationE_error_ne C p e1 heq
  next delta heq =>
    split at h
    next e2 heq2 =>
      injection h with h'
      subst h'
      rw [pySqrt_error _ _ heq2]
      simp
    next root heq2 =>
      split at h
      next e3 heq3 =>
        injection h with h'
        subst h'
        rw [pyDiv_error _ _ _ heq3]
        simp
      next q heq3 =>
        split at h
        next e4 heq4 =>
          injection h with h'
          subst h'
          rw [pyDiv_error _ _ _ heq4]
          simp
        next cotA heq4 => exact Except.noConfusion h

/-- The Fajr hour computation never fails with the shift error. -/
theorem fajrHoursE_error_ne (C : Collaborators Date) (p : Prayer Date)
    (e : PyError) (h : fajrHoursE C p = Except.error e) :
    e ≠ PyError.invalidShift := by
  unfold fajrHoursE at h
  split at h
  next e1 heq =>
    injection h with h'
    subst h'
    exact prayerTimeE_error_ne C p _ e1 heq
  next pt heq => exact Except.noConfusion h

/-- The Sherook hour computation never fails with the shift error. -/
theorem sherookHoursE_error_ne (C : Collaborators Date) (p : Prayer Date)
    (e : PyError) (h : sherookHoursE C p = Except.error e) :
    e ≠ PyError.invalidShift := by
  unfold sherookHoursE at h
  split at h
  next e1 heq =>
    injection h with h'
    subst h'
    exact prayerTimeE_error_ne C p _ e1 heq
  next pt heq => exact Except.noConfusion h

/-- The Asr hour computation never fails with the shift error. -/
theorem asrHoursE_error_ne (C : Collaborators Date) (p : Prayer Date)
    (e : PyError) (h : asrHoursE C p = Except.error e) :
    e ≠ PyError.invalidShift := by
  unfold asrHoursE at h
  split at h
  next e1 heq =>
    injection h with h'
    subst h'
    exact asrZenithE_error_ne C p e1 heq
  next az heq =>
    split at h
    next e2 heq2 =>
      injection h with h'
      subst h'
      exact prayerTimeE_error_ne C p az e2 heq2
    next pt heq2 => exact Except.noConfusion h

/-- The Maghreb hour computation never fails with the shift error. -/
theorem maghrebHoursE_error_ne (C : Collaborators Date) (p : Prayer Date)
    (e : PyError) (h : maghrebHoursE C p = Except.error e) :
    e ≠ PyError.invalidShift := by
  unfold maghrebHoursE at h
  split at h
  next e1 heq =>
    injection h with h'
    subst h'
    exact prayerTimeE_error_ne C p _ e1 heq
  next pt heq => exact Except.noConfusion h

/-- The Ishaa hour computation never fails with the shift error. -/
theorem ishaaHoursE_error_ne (C : Collaborators Date) (p : Prayer Date)
    (e : PyError) (h : ishaaHoursE C p = Except.error e) :
    e ≠ PyError.invalidShift := by
  unfold ishaaHoursE at h
  split at h
  next heq =>
    split at h
    next h9 =>
      split at h
      next e1 heq2 =>
        injection h with h'
        subst h'
        exact prayerTimeE_error_ne C p _ e1 heq2
      next pt heq2 => exact Except.noConfusion h
    next h9 =>
      split at h
      next e1 heq2 =>
        injection h with h'
        subst h'
        exact prayerTimeE_error_ne C p _ e1 heq2
      next pt heq2 => exact Except.noConfusion h
  next z heq =>
    split at h
    next e1 heq2 =>
      injection h with h'
      subst h'
      exact prayerTimeE_error_ne C p z e1 heq2
    next pt heq2 => exact Except.noConfusion h

/-- An accessor of the error-aware model yields the shift error exactly
when its hour computation succeeded and the shift is non-numeric. -/
theorem timeE_invalidShift_iff (m : Except PyError ℝ)
    (hne : ∀ e, m = Except.error e → e ≠ PyError.invalidShift)
    (shift : ShiftVal) (st : Bool) :
    (match m with
      | Except.error e => Except.error e
      | Except.ok v => hoursToTime v shift st)
        = Except.error PyError.invalidShift
      ↔ isOkE m = true ∧ shift.isNumeric = false := by
  cases m with
  | error e =>
    have h1 := hne e rfl
    simp [isOkE, h1]
  | ok v =>
    simp [isOkE, hoursToTime_invalidShift_iff]

/-- Degree-sine values are bounded by one in absolute value. -/
theorem abs_dsin_le_one (a : ℝ) : |dsin a| ≤ 1 := by
  unfold dsin
  exact abs_le.mpr ⟨Real.neg_one_le_sin _, Real.sin_le_one _⟩

/-- A product of a factor of absolute value below one and a factor of
absolute value at most one has square below one. -/
theorem abs_mul_self_lt_one {a b : ℝ} (ha : |a| < 1) (hb : |b| ≤ 1) :
    a * b * (a * b) < 1 := by
  have h1 : |a * b| < 1 := by
    rw [abs_mul]
    calc |a| * |b| ≤ |a| * 1 := mul_le_mul_of_nonneg_left hb (abs_nonneg a)
      _ = |a| := mul_one _
      _ < 1 := ha
  have h2 := abs_lt.mp h1
  nlinarith

/-- The degree sine of 23.44 lies strictly inside the unit interval. -/
theorem abs_dsin_2344_lt_one : |dsin 23.44| < 1 := by
  unfold dsin
  have hpi2 : π < 3.15 := Real.pi_lt_d2
  have hpi3 : 3 < π := Real.pi_gt_three
  have ht0 : 0 < (23.44 : ℝ) * (π / 180) := by positivity
  have ht1 : (23.44 : ℝ) * (π / 180) < 1 := by nlinarith
  have hlt : Real.sin ((23.44 : ℝ) * (π / 180)) < 1 :=
    lt_trans (Real.sin_lt ht0) ht1
  have hgt : 0 < Real.sin ((23.44 : ℝ) * (π / 180)) :=
    Real.sin_pos_of_pos_of_lt_pi ht0 (by nlinarith)
  exact abs_lt.mpr ⟨by linarith, hlt⟩

/-- When the obliquity degree sine is strictly inside the unit
interval, the declination sine product has square below one. -/
theorem sunDeclX_sq_lt_one (C : Collaborators Date) (p : Prayer Date)
    (h : |dsin (23.44
        - 0.0000004 * (C.gregorianToJulianDay p.date - 2451544.5))| < 1) :
    sunDeclX C p * sunDeclX C p < 1 := by
  unfold sunDeclX
  dsimp only
  exact abs_mul_self_lt_one h (abs_dsin_le_one _)

/-- When its sine product is strictly inside the unit interval, the
declination computation succeeds. -/
theorem sunDeclinationE_isOk (C : Collaborators Date) (p : Prayer Date)
    (h : sunDeclX C p * sunDeclX C p < 1) :
    ∃ d, sunDeclinationE C p = Except.ok d := by
  have h0 : (0 : ℝ) < -sunDeclX C p * sunDeclX C p + 1 := by nlinarith
  have hc : ¬(-sunDeclX C p * sunDeclX C p + 1 < 0) := by linarith
  have hr : Real.sqrt (-sunDeclX C p * sunDeclX C p + 1) ≠ 0 :=
    (Real.sqrt_pos.mpr h0).ne'
  unfold sunDeclinationE
  rw [pySqrt, if_neg hc]
  dsimp only
  rw [pyDiv, if_neg hr]
  exact ⟨_, rfl⟩

/-- At the epoch collaborators the declination computation succeeds for
every engine. -/
theorem sunDeclinationE_collab0_isOk (p : Prayer Unit) :
    ∃ d, sunDeclinationE collab0 p = Except.ok d := by
  apply sunDeclinationE_isOk
  apply sunDeclX_sq_lt_one
  have h : (23.44 : ℝ)
      - 0.0000004 * (collab0.gregorianToJulianDay p.date - 2451544.5)
      = 23.44 := by
    show (23.44 : ℝ) - 0.0000004 * (2451544.5 - 2451544.5) = 23.44
    norm_num
  rw [h]
  exact abs_dsin_2344_lt_one

/-- The degree cosine of 90 is exactly zero. -/
theorem dcos_90 : dcos 90 = 0 := by
  unfold dcos
  rw [show (90 : ℝ) * (π / 180) = π / 2 from by ring]
  exact Real.cos_pi_div_two

/-- At the North Pole engine, every hour-angle computation raises the
division error: the denominator `dcos(latitude) * dcos(delta)` is
exactly zero. -/
theorem prayerTimeE_engPolar (z : ℝ) :
    prayerTimeE collab0 engPolar z = Except.error PyError.zeroDivision := by
  obtain ⟨d, hd⟩ := sunDeclinationE_collab0_isOk engPolar
  unfold prayerTimeE
  rw [hd]
  dsimp only
  rw [show dcos engPolar.conf.latitude = 0 from dcos_90, zero_mul, pyDiv,
    if_pos rfl]

/-- At the North Pole engine the Ishaa hour computation raises: the
discarded continuation statement still evaluates the raising
`__prayerTime` call. -/
theorem ishaaHoursE_engPolar :
    ishaaHoursE collab0 engPolar = Except.error PyError.zeroDivision := by
  unfold ishaaHoursE
  rw [show engPolar.conf.ishaaZenith = (none : Option ℝ) from rfl]
  dsimp only
  rw [if_pos (show collab0.hijriMonth engPolar.date engPolar.correction_val
        = 9 from rfl),
    prayerTimeE_engPolar]

/-- At the North Pole engine, `ishaaTime` raises the division error for
every shift, numeric or not. -/
theorem ishaaTimeE_engPolar (shift : ShiftVal) :
    ishaaTimeE collab0 engPolar shift
      = Except.error PyError.zeroDivision := by
  unfold ishaaTimeE
  rw [ishaaHoursE_engPolar]

/-! Claim theorems. -/

/-- Claim C1 (refuting theorem): the claim states that with zenith
method 4 (Umm al-Qura) the Ishaa decimal-hour value minus the Maghreb
decimal-hour value is exactly 1.5 outside Ramadan and 2.0 in Ramadan.
In the code the fixed-offset additions are discarded expression
statements, `ishaa_t` stays equal to the Dohr hours, and the difference
equals `-prayerTime(maghrebZenith)`, which is strictly negative for
every date, Hijri month, location and collaborator — never 1.5 or
2.0. -/
theorem claimC1_ishaa_maghreb_difference_negative (C : Collaborators Date)
    (dat : Date) (corr : ℤ) (lo la tz : ℝ) (mad : ℤ) (st : Bool) :
    ishaaHours C ⟨mkPrayerConf lo la tz 4 mad st, dat, corr⟩
      - maghrebHours C ⟨mkPrayerConf lo la tz 4 mad st, dat, corr⟩ < 0 := by
  set p : Prayer Date := ⟨mkPrayerConf lo la tz 4 mad st, dat, corr⟩ with hp
  rw [ishaaHours_eq_dohrHours C p
    (mkPrayerConf_method4_ishaaZenith lo la tz mad st)]
  unfold maghrebHours
  have := prayerTime_pos C p p.conf.maghrebZenith
  linarith

/-- Claim C2 (counterexample): at the North Pole engine with the Umm
al-Qura method and the numeric shift 0, `ishaaTime` does NOT return the
same result as `dohrTime`: the discarded continuation statement still
evaluates `__prayerTime(maghrebZenith)`, which raises
`ZeroDivisionError` there (`dcos 90 = 0`), while `dohrTime` involves no
raising operation. -/
theorem claimC2_counterexample :
    ishaaTimeE collab0 engPolar (ShiftVal.float 0)
      ≠ dohrTimeE collab0 engPolar (ShiftVal.float 0) := by
  rw [ishaaTimeE_engPolar]
  intro h
  exact hoursToTime_ne_zeroDivision _ _ _ h.symm

/-- Claim C2 (amended): for every method-4 engine, date and shift, when
the Maghreb hour-angle computation raises (possible at extreme
latitudes: math-domain or zero-division error), `ishaaTime` propagates
that error — the discarded continuation statement still evaluates it —
and otherwise `ishaaTime` returns exactly the same clock time as
`dohrTime`, in both the Ramadan and non-Ramadan branches. -/
theorem claimC2_amended (C : Collaborators Date) (dat : Date) (corr : ℤ)
    (lo la tz : ℝ) (mad : ℤ) (st : Bool) (shift : ShiftVal) :
    ishaaTimeE C ⟨mkPrayerConf lo la tz 4 mad st, dat, corr⟩ shift =
      (match prayerTimeE C ⟨mkPrayerConf lo la tz 4 mad st, dat, corr⟩
          ((mkPrayerConf lo la tz 4 mad st).maghrebZenith) with
       | Except.error e => Except.error e
       | Except.ok _ =>
           dohrTimeE C ⟨mkPrayerConf lo la tz 4 mad st, dat, corr⟩ shift) := by
  unfold ishaaTimeE ishaaHoursE
  rw [show (⟨mkPrayerConf lo la tz 4 mad st, dat, corr⟩ :
      Prayer Date).conf.ishaaZenith = (none : Option ℝ) from rfl]
  dsimp only
  by_cases h9 : C.hijriMonth dat corr = 9
  · rw [if_pos h9]
    generalize prayerTimeE C ⟨mkPrayerConf lo la tz 4 mad st, dat, corr⟩
        ((mkPrayerConf lo la tz 4 mad st).maghrebZenith) = r
    cases r with
    | error e => rfl
    | ok v => rfl
  · rw [if_neg h9]
    generalize prayerTimeE C ⟨mkPrayerConf lo la tz 4 mad st, dat, corr⟩
        ((mkPrayerConf lo la tz 4 mad st).maghrebZenith) = r
    cases r with
    | error e => rfl
    | ok v => rfl

/-- Claim C3 (refuting theorem): the claim states Maghreb < Ishaa in
decimal hours for every valid configuration.  With zenith method 4 the
code computes Ishaa hours equal to Dohr hours, which lie strictly
BEFORE the Maghreb hours, for every date and location. -/
theorem claimC3_ishaa_before_maghreb (C : Collaborators Date)
    (dat : Date) (corr : ℤ) (lo la tz : ℝ) (mad : ℤ) (st : Bool) :
    ishaaHours C ⟨mkPrayerConf lo la tz 4 mad st, dat, corr⟩
      < maghrebHours C ⟨mkPrayerConf lo la tz 4 mad st, dat, corr⟩ := by
  set p : Prayer Date := ⟨mkPrayerConf lo la tz 4 mad st, dat, corr⟩ with hp
  rw [ishaaHours_eq_dohrHours C p
    (mkPrayerConf_method4_ishaaZenith lo la tz mad st)]
  unfold maghrebHours
  have := prayerTime_pos C p p.conf.maghrebZenith
  linarith

/-- Claim C4: for every configuration and date, the Dohr decimal-hour
value equals `12 + (timezone * 15 - longitude)/15 +
equationOfTimeMinutes(julianDay(date))/60`, with the equation of time
given by the three-harmonic formula of the spec. -/
theorem claimC4_dohr_formula (C : Collaborators Date) (dat : Date)
    (corr : ℤ) (lo la tz : ℝ) (ref mad : ℤ) (st : Bool) :
    dohrHours C ⟨mkPrayerConf lo la tz ref mad st, dat, corr⟩
      = 12 + (tz * 15 - lo) / 15
        + equationOfTimeSpec (C.gregorianToJulianDay dat) / 60 := rfl

/-- Claim C5 (counterexample): at a concrete engine (Egyptian method,
Shafii, longitude 31.2, latitude 30, timezone 2, Julian day of the
J2000.0 epoch) the Asr zenith the code returns differs from the
`90 - atan(madhabFactor + 1/tan(a))` value the claim states: the two
differ by the constant 90. -/
theorem claimC5_counterexample :
    asrZenith collab0 engShafii ≠ asrZenithSpec collab0 engShafii := by
  rw [asrZenith_eq_spec_sub_90]
  intro h
  linarith

/-- Claim C5 (amended): the Asr zenith the code returns equals the value
stated in the claim minus 90, i.e. `-(180/π) * atan(madhabFactor +
1/tan(a))`: the `2 * atan(1)` term in the source adds `π/2` before the
degree conversion, shifting the result by a further `-90`. -/
theorem claimC5_amended (C : Collaborators Date) (p : Prayer Date) :
    asrZenith C p = asrZenithSpec C p - 90 :=
  asrZenith_eq_spec_sub_90 C p

/-- Claim C6 (counterexample): at the same concrete latitude and date,
the Asr zenith computed with the Hanafi madhab (factor 2) is strictly
SMALLER than with the Shafii madhab (factor 1), refuting the claimed
`Hanafi ≥ Shafii`. -/
theorem claimC6_counterexample :
    asrZenith collab0 engHanafi < asrZenith collab0 engShafii := by
  apply asrZenith_lt_of_madhab_lt
  · rfl
  · rfl
  · show (1 : ℤ) < 2
    norm_num

/-- Claim C6 (amended): for every latitude and declination (same date),
the Asr zenith computed with the Hanafi madhab is strictly LESS than
with the Shafii madhab: the code returns the negated zenith magnitude,
so the claimed inequality is reversed (downstream only the cosine of
this value is used, so Asr itself is still later for Hanafi). -/
theorem claimC6_amended (C : Collaborators Date) (conf : PrayerConf)
    (dat : Date) (corr : ℤ) :
    asrZenith C ⟨{ conf with asrMadhab := 2 }, dat, corr⟩
      < asrZenith C ⟨{ conf with asrMadhab := 1 }, dat, corr⟩ := by
  apply asrZenith_lt_of_madhab_lt
  · rfl
  · rfl
  · show (1 : ℤ) < 2
    norm_num

/-- Claim C7 (counterexample): a decimal-hour value that floors to 24
does NOT make the accessor return the unnormalized hour: the
`datetime.time` constructor rejects the out-of-range hour and the call
raises `ValueError`. -/
theorem claimC7_counterexample :
    hoursToTime 24.5 (ShiftVal.float 0) false
      = Except.error PyError.valueError := by
  have h2 : ⌊(24.5 : ℝ) + 0 / 3600⌋ = 24 := by
    rw [Int.floor_eq_iff]
    norm_num
  unfold hoursToTime
  rw [if_neg (by simp [ShiftVal.isNumeric])]
  dsimp only [ShiftVal.toReal]
  unfold timeCtor
  rw [h2]
  rw [if_neg]
  norm_num

/-- Claim C7 (amended): the hour component is never reduced into the
0–23 range — the converter uses `floor(hours) + st` as-is — and
whenever that value falls outside 0–23 (floors to 24 or more, or is
negative) the call raises `ValueError` from the time constructor
instead of returning a time. -/
theorem claimC7_amended (val x : ℝ) (st : Bool)
    (h : ¬(0 ≤ ⌊val + x / 3600⌋ + (if st then (1 : ℤ) else 0)
          ∧ ⌊val + x / 3600⌋ + (if st then (1 : ℤ) else 0) < 24)) :
    hoursToTime val (ShiftVal.float x) st
      = Except.error PyError.valueError := by
  unfold hoursToTime
  rw [if_neg (by simp [ShiftVal.isNumeric])]
  dsimp only [ShiftVal.toReal]
  unfold timeCtor
  exact if_neg (fun hc => h ⟨hc.1, hc.2.1⟩)

/-- Claim C7 (witness for the amended theorem): a negative hour value
raises `ValueError`. -/
theorem claimC7_witness :
    hoursToTime (-1) (ShiftVal.float 0) false
      = Except.error PyError.valueError := by
  apply claimC7_amended
  have h : ⌊(-1 : ℝ) + 0 / 3600⌋ = -1 := by
    rw [Int.floor_eq_iff]
    norm_num
  rw [h]
  norm_num

/-- Claim C8: engine construction fails exactly when the correction
value lies outside the closed integer range [-2, 2]; on success the
engine stores the configuration, the date and the correction value
unchanged, and on failure no engine value is produced. -/
theorem claimC8_correction_range (conf : PrayerConf) (dat : Date) (v : ℤ) :
    prayerInit conf dat v =
      (if -2 ≤ v ∧ v ≤ 2 then Except.ok ⟨conf, dat, v⟩
       else Except.error PyError.correctionValue) := by
  unfold prayerInit
  by_cases hv : -2 ≤ v ∧ v < 3
  · rw [if_neg (not_not_intro hv), if_pos (by omega)]
  · rw [if_pos hv, if_neg (by omega)]

/-- Claim C8 (witness): correction value 3 is rejected and 2 accepted
at a concrete configuration. -/
theorem claimC8_witness :
    prayerInit (mkPrayerConf 31.2 30 2 3 1 false) () 3
        = Except.error PyError.correctionValue
    ∧ prayerInit (mkPrayerConf 31.2 30 2 3 1 false) () 2
        = Except.ok ⟨mkPrayerConf 31.2 30 2 3 1 false, (), 2⟩ := by
  constructor
  · rw [claimC8_correction_range]
    norm_num
  · rw [claimC8_correction_range]
    norm_num

/-- Claim C9 (counterexample): at the North Pole engine, passing the
non-numeric text shift to the Ishaa accessor does NOT raise the shift
error: the decimal-hour expression is evaluated before the isinstance
check and raises `ZeroDivisionError` first. -/
theorem claimC9_counterexample :
    ShiftVal.isNumeric ShiftVal.text = false
    ∧ ishaaTimeE collab0 engPolar ShiftVal.text
        = Except.error PyError.zeroDivision
    ∧ ishaaTimeE collab0 engPolar ShiftVal.text
        ≠ Except.error PyError.invalidShift := by
  refine ⟨rfl, ishaaTimeE_engPolar ShiftVal.text, ?_⟩
  rw [ishaaTimeE_engPolar]
  simp

/-- Claim C9 (amended): for every engine and every shift, each accessor
raises the shift error exactly when its decimal-hour computation
succeeds AND the shift is non-numeric: the hour expression is evaluated
before the isinstance check, its math-domain/zero-division errors take
precedence and are never the shift error, and a numeric shift never
causes the shift error. -/
theorem claimC9_amended (C : Collaborators Date) (p : Prayer Date)
    (shift : ShiftVal) :
    (fajrTimeE C p shift = Except.error PyError.invalidShift
        ↔ isOkE (fajrHoursE C p) = true ∧ shift.isNumeric = false)
    ∧ (sherookTimeE C p shift = Except.error PyError.invalidShift
        ↔ isOkE (sherookHoursE C p) = true ∧ shift.isNumeric = false)
    ∧ (dohrTimeE C p shift = Except.error PyError.invalidShift
        ↔ shift.isNumeric = false)
    ∧ (asrTimeE C p shift = Except.error PyError.invalidShift
        ↔ isOkE (asrHoursE C p) = true ∧ shift.isNumeric = false)
    ∧ (maghrebTimeE C p shift = Except.error PyError.invalidShift
        ↔ isOkE (maghrebHoursE C p) = true ∧ shift.isNumeric = false)
    ∧ (ishaaTimeE C p shift = Except.error PyError.invalidShift
        ↔ isOkE (ishaaHoursE C p) = true ∧ shift.isNumeric = false) :=
  ⟨timeE_invalidShift_iff _ (fajrHoursE_error_ne C p) shift _,
   timeE_invalidShift_iff _ (sherookHoursE_error_ne C p) shift _,
   hoursToTime_invalidShift_iff _ shift _,
   timeE_invalidShift_iff _ (asrHoursE_error_ne C p) shift _,
   timeE_invalidShift_iff _ (maghrebHoursE_error_ne C p) shift _,
   timeE_invalidShift_iff _ (ishaaHoursE_error_ne C p) shift _⟩

/-- Claim C10: for every unrecognized zenith method and every madhab
value other than the Hanafi sentinel 2, configuration construction
(which never raises) resolves the Fajr/Ishaa zeniths to the method 3
values 109.5/107.5 and the madhab to Shafii (1). -/
theorem claimC10_defaults (lo la tz : ℝ) (ref mad : ℤ) (st : Bool)
    (h1 : ref ≠ 1) (h2 : ref ≠ 2) (h3 : ref ≠ 3) (h4 : ref ≠ 4)
    (h5 : ref ≠ 5) (hm : mad ≠ 2) :
    (mkPrayerConf lo la tz ref mad st).fajrZenith = 109.5
    ∧ (mkPrayerConf lo la tz ref mad st).ishaaZenith = some 107.5
    ∧ (mkPrayerConf lo la tz ref mad st).asrMadhab = 1 := by
  unfold mkPrayerConf zenithsGet
  simp [h1, h2, h3, h4, h5, hm]

/-- Claim C10 (witness): method 99 with madhab 5 resolves to the
method 3 zeniths and the Shafii madhab. -/
theorem claimC10_witness :
    (mkPrayerConf 31.2 30 2 99 5 false).fajrZenith = 109.5
    ∧ (mkPrayerConf 31.2 30 2 99 5 false).ishaaZenith = some 107.5
    ∧ (mkPrayerConf 31.2 30 2 99 5 false).asrMadhab = 1 :=
  claimC10_defaults 31.2 30 2 99 5 false (by norm_num) (by norm_num)
    (by norm_num) (by norm_num) (by norm_num) (by norm_num)

end

end PyIslam
